import Mathlib

/-!
Shallow embedding of `src/rss_log_feed/src/main.py` (addon-rss-log-feed),
together with proofs settling the specification claims.

Conventions of the embedding:
* Python JSON values are the inductive `Json`; JSON objects are association
  lists with distinct keys (Python `dict` preserves insertion order).
* `json.dumps(..., default=str, sort_keys=True)` is `dumpsJson ∘ jsonSortKeys`.
* Machine-irrelevant runtime artefacts (tracebacks, socket addresses) are
  carried as plain strings.
* The TTL-bounded record buffer (`LH`, a `wg_utilities` `ListHandler`) is not
  part of this repository's sources; where a claim depends on it, the store is
  modelled from the spec (see the doc comments starting `Modelled from the
  spec:`).  Its attribute surface visible from `main.py` (the
  `NAME_TO_RECORD_LIST` table, lines 53-59) is `records` plus the five
  lowercase `<level>_records` lists.
-/

namespace RssLogFeed

/-- JSON-like values, the payload data carried by log records.  Floats are
omitted (no claim involves them); integers cover the numeric inputs used. -/
inductive Json where
  | str (s : String)
  | num (n : Int)
  | bool (b : Bool)
  | null
  | arr (xs : List Json)
  | obj (fields : List (String × Json))

/-- Escape one character the way `json.dumps` does for the characters that can
occur in this development (the printable subset plus the common escapes). -/
def escapeJsonChar (c : Char) : String :=
  if c = '"' then "\\\""
  else if c = '\\' then "\\\\"
  else if c = '\n' then "\\n"
  else if c = '\t' then "\\t"
  else if c = '\r' then "\\r"
  else String.singleton c

/-- Escape a string for inclusion in a JSON document, as `json.dumps` does. -/
def escapeJsonString (s : String) : String :=
  String.join (s.data.map escapeJsonChar)

mutual

/-- Model of `json.dumps` with the default separators `", "` and `": "`,
serialising fields in the order they appear in the object. -/
def dumpsJson : Json → String
  | .str s => "\"" ++ escapeJsonString s ++ "\""
  | .num n => toString n
  | .bool b => if b then "true" else "false"
  | .null => "null"
  | .arr xs => "[" ++ dumpsList xs ++ "]"
  | .obj fs => "\x7b" ++ dumpsFields fs ++ "\x7d"

/-- Serialise the elements of a JSON array, comma-separated. -/
def dumpsList : List Json → String
  | [] => ""
  | [x] => dumpsJson x
  | x :: y :: xs => dumpsJson x ++ ", " ++ dumpsList (y :: xs)

/-- Serialise the fields of a JSON object, comma-separated. -/
def dumpsFields : List (String × Json) → String
  | [] => ""
  | [(k, v)] => "\"" ++ escapeJsonString k ++ "\": " ++ dumpsJson v
  | (k, v) :: y :: xs =>
    "\"" ++ escapeJsonString k ++ "\": " ++ dumpsJson v ++ ", " ++ dumpsFields (y :: xs)

end

/-- Sort the fields of a JSON object by key, the effect of `sort_keys=True` at
one nesting level.  Python sorts `str` keys by code point, which is exactly
the `String` linear order. -/
def sortFields (fs : List (String × Json)) : List (String × Json) :=
  fs.insertionSort (fun a b => a.1 ≤ b.1)

mutual

/-- Recursively sort every object's fields by key; composed with `dumpsJson`
this is `json.dumps(..., sort_keys=True)`. -/
def jsonSortKeys : Json → Json
  | .str s => .str s
  | .num n => .num n
  | .bool b => .bool b
  | .null => .null
  | .arr xs => .arr (jsonSortKeysList xs)
  | .obj fs => .obj (sortFields (jsonSortKeysFields fs))

/-- Recursively sort object keys inside every element of an array. -/
def jsonSortKeysList : List Json → List Json
  | [] => []
  | x :: xs => jsonSortKeys x :: jsonSortKeysList xs

/-- Recursively sort object keys inside every value of an object. -/
def jsonSortKeysFields : List (String × Json) → List (String × Json)
  | [] => []
  | (k, v) :: xs => (k, jsonSortKeys v) :: jsonSortKeysFields xs

end

/-- The single-quote character, written by code point to keep the source
printable-ASCII friendly. -/
def squote : Char := Char.ofNat 39

/-- Escape one character the way CPython `repr` does for printable input:
backslash, the enclosing quote, and the common control characters. -/
def pyReprEscChar (quote : Char) (c : Char) : String :=
  if c = '\\' then "\\\\"
  else if c = quote then "\\" ++ String.singleton quote
  else if c = '\n' then "\\n"
  else if c = '\t' then "\\t"
  else if c = '\r' then "\\r"
  else String.singleton c

/-- Model of CPython `repr` on strings (the `!r` format conversion), restricted
to printable input: single quotes unless the string contains a single quote
and no double quote, in which case double quotes are used. -/
def pyRepr (s : String) : String :=
  let quote := if s.data.contains squote ∧ ¬ s.data.contains '"' then '"' else squote
  String.singleton quote ++ String.join (s.data.map (pyReprEscChar quote)) ++
    String.singleton quote

mutual

/-- Model of Python `str()` on JSON-decoded values, used where `main.py`
interpolates a decoded value into an f-string. -/
def pyStr : Json → String
  | .str s => s
  | .num n => toString n
  | .bool b => if b then "True" else "False"
  | .null => "None"
  | .arr xs => "[" ++ pyReprList xs ++ "]"
  | .obj fs => "\x7b" ++ pyReprFields fs ++ "\x7d"

/-- Model of Python `repr()` on JSON-decoded values (elements of containers
are rendered with `repr`, not `str`). -/
def pyReprJson : Json → String
  | .str s => pyRepr s
  | .num n => toString n
  | .bool b => if b then "True" else "False"
  | .null => "None"
  | .arr xs => "[" ++ pyReprList xs ++ "]"
  | .obj fs => "\x7b" ++ pyReprFields fs ++ "\x7d"

/-- Render list elements Python-style, comma-separated with `repr`. -/
def pyReprList : List Json → String
  | [] => ""
  | [x] => pyReprJson x
  | x :: y :: xs => pyReprJson x ++ ", " ++ pyReprList (y :: xs)

/-- Render dict items Python-style, comma-separated with `repr`. -/
def pyReprFields : List (String × Json) → String
  | [] => ""
  | [(k, v)] => pyRepr k ++ ": " ++ pyReprJson v
  | (k, v) :: y :: xs => pyRepr k ++ ": " ++ pyReprJson v ++ ", " ++ pyReprFields (y :: xs)

end

/-- The validated payload of one log record: the `LogPayload` pydantic model
of `main.py` (fields `client`, `message`, `extra`, declared in that order).
`extra` is an ordered mapping modelled as an association list. -/
structure LogPayload where
  client : String
  message : String
  extra : List (String × Json)

/-- Model of `LogPayload.dict()` followed by `json.dumps`/`json.loads`: the
payload as the dict `main.py` stores in the record's message.  pydantic emits
the declared fields in declaration order, so the keys are exactly
`client`, `message`, `extra`. -/
def LogPayload.toDict (p : LogPayload) : List (String × Json) :=
  [("client", Json.str p.client), ("message", Json.str p.message),
    ("extra", Json.obj p.extra)]

/-- A buffered log record as produced by `RECORD_COLLECTOR.log(level_num,
dumps(log_payload.dict()))`: creation time (epoch seconds), numeric level, and
the payload recovered by `loads(record.getMessage())`. -/
structure LogRecord where
  created : Nat
  levelno : Nat
  payload : LogPayload

/-- Model of `logging.getLevelName` on the numeric levels this program uses. -/
def getLevelName (n : Nat) : String :=
  if n = 50 then "CRITICAL"
  else if n = 40 then "ERROR"
  else if n = 30 then "WARNING"
  else if n = 20 then "INFO"
  else if n = 10 then "DEBUG"
  else "Level " ++ toString n

/-- Dict lookup: the value stored under key `k`, if any (keys are distinct). -/
def dictGet (d : List (String × Json)) (k : String) : Option Json :=
  (d.find? (fun kv => kv.1 == k)).map (fun kv => kv.2)

/-- Model of Python `dict.pop(k, default)`: the popped value (if present) and
the remaining dict. -/
def popKey (d : List (String × Json)) (k : String) :
    Option Json × List (String × Json) :=
  (dictGet d k, d.filter (fun kv => kv.1 != k))

/-- Civil (calendar) time: the fields `strftime` renders. -/
structure CivilTime where
  year : Int
  month : Nat
  day : Nat
  hour : Nat
  minute : Nat
  second : Nat

/-- Convert an epoch instant to local civil time given the local UTC offset in
seconds; this is `datetime.fromtimestamp` (which uses the process's local
timezone).  The date part follows the standard days-to-civil conversion of the
proleptic Gregorian calendar. -/
def civilFromEpoch (tz : Int) (epoch : Nat) : CivilTime :=
  let t : Int := (epoch : Int) + tz
  -- For the positive divisors below, Euclidean division is floor division.
  let days : Int := Int.ediv t 86400
  let secs : Nat := (Int.emod t 86400).toNat
  let z : Int := days + 719468
  let era : Int := Int.ediv z 146097
  let doe : Nat := (Int.emod z 146097).toNat
  let yoe : Nat := (doe - doe / 1460 + doe / 36524 - doe / 146096) / 365
  let doy : Nat := doe - (365 * yoe + yoe / 4 - yoe / 100)
  let mp : Nat := (5 * doy + 2) / 153
  let d : Nat := doy - (153 * mp + 2) / 5 + 1
  let m : Nat := if mp < 10 then mp + 3 else mp - 9
  let y : Int := (yoe : Int) + era * 400 + (if m ≤ 2 then 1 else 0)
  { year := y, month := m, day := d,
    hour := secs / 3600, minute := secs % 3600 / 60, second := secs % 60 }

/-- Zero-pad a number below 100 to two digits, as `strftime` does. -/
def pad2 (n : Nat) : String :=
  if n < 10 then "0" ++ toString n else toString n

/-- Model of `datetime.fromtimestamp(created).strftime("%Y-%m-%d %H:%M:%S")`,
parameterised by the local UTC offset `tz` in seconds. -/
def formatTimestamp (tz : Int) (epoch : Nat) : String :=
  let c := civilFromEpoch tz epoch
  toString c.year ++ "-" ++ pad2 c.month ++ "-" ++ pad2 c.day ++ " " ++
    pad2 c.hour ++ ":" ++ pad2 c.minute ++ ":" ++ pad2 c.second

/-- Model of `datetime.fromtimestamp(created).strftime("%Y%m%d")`, the 8-digit
date code naming daily archive files. -/
def formatDateCode (tz : Int) (epoch : Nat) : String :=
  let c := civilFromEpoch tz epoch
  toString c.year ++ pad2 c.month ++ pad2 c.day

/-- Model of Python `str.rstrip(".")`: drop every trailing dot. -/
def rstripDots (s : String) : String :=
  String.mk ((s.data.reverse.dropWhile (fun c => c == '.')).reverse)

/-- Model of Python `sep.join(parts)`. -/
def strJoin (sep : String) : List String → String
  | [] => ""
  | [x] => x
  | x :: y :: xs => x ++ sep ++ strJoin sep (y :: xs)

/-- Model of `_create_log_string(record, message_only)` (`main.py` 158-195),
parameterised by the local UTC offset `tz`.  The record's message is always
`dumps(LogPayload.dict())`, so the loaded dict has exactly the keys `client`,
`message` (a string) and `extra`; the `pop` defaults (`"unknown"`, `None`) are
therefore never taken, and the Python truthiness test `if log_message` is the
test for a non-empty string. -/
def create_log_string (tz : Int) (record : LogRecord) (message_only : Bool) :
    String :=
  let client := record.payload.client
  let log_message :=
    if record.payload.extra.length > 0 then
      let extra_data_suffix :=
        "Extra data: " ++ dumpsJson (jsonSortKeys (Json.obj record.payload.extra))
      if record.payload.message = "" then extra_data_suffix
      else rstripDots record.payload.message ++ ". " ++ extra_data_suffix
    else record.payload.message
  if message_only then log_message
  else
    strJoin "\t"
      [formatTimestamp tz record.created,
        "[" ++ getLevelName record.levelno ++ "]",
        client,
        log_message]

/-- Modelled from the spec: the Record Store state (§3) held by the
`wg_utilities` `ListHandler` `LH`, which is not part of this repository's
sources — one combined ordered sequence in arrival order plus five derived
per-severity sequences.  The field names are the attribute names `main.py`
reads off `LH` (lines 53-59 and 234-238). -/
structure Store where
  records : List LogRecord
  critical_records : List LogRecord
  error_records : List LogRecord
  warning_records : List LogRecord
  info_records : List LogRecord
  debug_records : List LogRecord

/-- The empty store: no buffered records. -/
def storeEmpty : Store :=
  { records := [], critical_records := [], error_records := [],
    warning_records := [], info_records := [], debug_records := [] }

/-- Modelled from the spec: `Store.append` (§4.1) — the record joins the
combined sequence and its level-partition (records of this program always
carry one of the five numeric levels 50/40/30/20/10). -/
def Store.append (s : Store) (r : LogRecord) : Store :=
  { records := s.records ++ [r]
    critical_records :=
      if r.levelno = 50 then s.critical_records ++ [r] else s.critical_records
    error_records :=
      if r.levelno = 40 then s.error_records ++ [r] else s.error_records
    warning_records :=
      if r.levelno = 30 then s.warning_records ++ [r] else s.warning_records
    info_records :=
      if r.levelno = 20 then s.info_records ++ [r] else s.info_records
    debug_records :=
      if r.levelno = 10 then s.debug_records ++ [r] else s.debug_records }

/-- The store obtained by appending the given records, in order, to the empty
store. -/
def appendAll (rs : List LogRecord) : Store :=
  rs.foldl Store.append storeEmpty

/-- The five recognized severity levels. -/
inductive LogLevel where
  | critical
  | error
  | warning
  | info
  | debug

/-- The numeric value of each severity level (`logging` module constants). -/
def LogLevel.toNat : LogLevel → Nat
  | .critical => 50
  | .error => 40
  | .warning => 30
  | .info => 20
  | .debug => 10

/-- The level-partition of the store for a given severity. -/
def Store.partitionOf (s : Store) : LogLevel → List LogRecord
  | .critical => s.critical_records
  | .error => s.error_records
  | .warning => s.warning_records
  | .info => s.info_records
  | .debug => s.debug_records

/-- The effects of one `log_record_to_sftp` call: diagnostics emitted on the
local logger as (level name, message) pairs, and remote file appends as
(file name, data) pairs. -/
structure SftpResult where
  diagnostics : List (String × String)
  writes : List (String × String)

/-- The warning emitted when durable-storage credentials are missing
(`main.py` 209-211). -/
def sftpSkipWarning : String :=
  "SFTP credentials not provided, skipping log record to SFTP server"

/-- Model of `log_record_to_sftp(record)` (`main.py` 198-219): render the full
log line; without SFTP credentials, emit a warning and a debug line and return
without writing; with credentials, append the line to the daily file. -/
def log_record_to_sftp (sftp_creds_provided : Bool) (tz : Int)
    (record : LogRecord) : SftpResult :=
  let log_str := create_log_string tz record false
  if sftp_creds_provided = false then
    { diagnostics :=
        [("WARNING", sftpSkipWarning), ("DEBUG", "Record: `" ++ log_str ++ "`")]
      writes := [] }
  else
    { diagnostics := []
      writes := [(formatDateCode tz record.created ++ ".log", log_str ++ "\n")] }

/-- Modelled from the spec: the expiry sweep (§4.1) run by the `ListHandler` —
records whose age reaches the TTL are removed from every view, and each, in
arrival order, is handed to the `on_record` callback `log_record_to_sftp`. -/
def sweepExpired (sftp_creds_provided : Bool) (tz : Int) (now ttl : Nat)
    (s : Store) : Store × List SftpResult :=
  let live := fun (r : LogRecord) => decide (now - r.created < ttl)
  let expired := s.records.filter (fun r => ! live r)
  ({ records := s.records.filter live
     critical_records := s.critical_records.filter live
     error_records := s.error_records.filter live
     warning_records := s.warning_records.filter live
     info_records := s.info_records.filter live
     debug_records := s.debug_records.filter live },
    expired.map (log_record_to_sftp sftp_creds_provided tz))

/-- Model of `getattr(LH, f"<level>_records")` (`main.py` 238): the dynamic
attribute lookup succeeds exactly for the five lowercase level names, the
`*_records` attributes the `ListHandler` exposes (as witnessed by
`NAME_TO_RECORD_LIST`, `main.py` 53-59); attribute access is case-sensitive,
so any other string raises `AttributeError`, modelled as `none`. -/
def recordsAttr (s : Store) (level : String) : Option (List LogRecord) :=
  if level = "critical" then some s.critical_records
  else if level = "error" then some s.error_records
  else if level = "warning" then some s.warning_records
  else if level = "info" then some s.info_records
  else if level = "debug" then some s.debug_records
  else none

/-- The level names for which the feed query succeeds. -/
def queryLevelNames : List String :=
  ["critical", "error", "warning", "info", "debug"]

/-- One rendered feed entry (`main.py` 247-259): title, link, published
instant, category label, and description. -/
structure FeedEntry where
  title : String
  link : String
  published : Nat
  category : String
  description : String

/-- Render one record into a feed entry (`main.py` 247-259): the title is the
payload's `client` (`pop("client")` on the loaded dict, always present); the
link is `pop("link", default)` on the loaded *top-level* dict; the category is
the record's level name; the description is the message-only rendering. -/
def renderEntry (tz : Int) (record : LogRecord) : FeedEntry :=
  let record_payload := record.payload.toDict
  { title := record.payload.client
    link :=
      match dictGet record_payload "link" with
      | some v => pyStr v
      | none => "http://homeassistant.local:8123"
    published := record.created
    category := getLevelName record.levelno
    description := create_log_string tz record true }

/-- Outcome of `GET /feed/logs`: the 400 plain-text error, or the feed (whose
RSS serialisation is determined by its entries). -/
inductive FeedResponse where
  | invalidLevel (body : String)
  | feed (entries : List FeedEntry)

/-- Whether a feed query returned a rendered feed. -/
def FeedResponse.isFeed : FeedResponse → Bool
  | .invalidLevel _ => false
  | .feed _ => true

/-- Model of the handler `get_log_feed` (`main.py` 222-267): without a `level`
query parameter the combined list is rendered; otherwise the record list comes
from the dynamic attribute lookup, and a failed lookup yields a 400 response
with body `f"Invalid level: <repr of level>"`. -/
def get_log_feed (tz : Int) (s : Store) (level : Option String) : FeedResponse :=
  match level with
  | none => .feed (s.records.map (renderEntry tz))
  | some lv =>
    match recordsAttr s lv with
    | some record_list => .feed (record_list.map (renderEntry tz))
    | none => .invalidLevel ("Invalid level: " ++ pyRepr lv)

/-- Model of Python `str.upper()` on the ASCII level names this program
compares (`Char.toUpper` upcases exactly the ASCII range). -/
def strUpper (s : String) : String :=
  String.mk (s.data.map Char.toUpper)

/-- Model of the `NAME_TO_LEVEL` dict's `get` method (`main.py` 44-51): note
the six keys, including the `WARN` alias for `WARNING`. -/
def NAME_TO_LEVEL_get (name : String) : Option Nat :=
  if name = "CRITICAL" then some 50
  else if name = "ERROR" then some 40
  else if name = "WARN" then some 30
  else if name = "WARNING" then some 30
  else if name = "INFO" then some 20
  else if name = "DEBUG" then some 10
  else none

/-- An inbound `POST /log/<level>` body, as `LogPayload.from_request` sees it:
a JSON-object request (`req.is_json`), a raw-text request whose text parses as
a JSON object (the stringified-JSON path), or raw text that is not valid JSON.
Bodies whose JSON decodes to a non-object make the Python code raise an
unhandled `AttributeError`/`TypeError` on `.pop` (an HTTP 500) and never reach
the store; they are outside this model. -/
inductive ReqBody where
  | jsonBody (obj : List (String × Json))
  | textJsonBody (obj : List (String × Json))
  | textBody (s : String)

/-- The `raw_payload` left after `pop("message", None)` in
`LogPayload.from_request` (`main.py` 107-117). -/
def rawPayloadOf : ReqBody → List (String × Json)
  | .jsonBody obj => (popKey obj "message").2
  | .textJsonBody obj => (popKey obj "message").2
  | .textBody _ => []

/-- The value bound to `log_payload["message"]` in `LogPayload.from_request`:
the popped `message` for JSON bodies, the whole decoded text otherwise. -/
def messageValOf : ReqBody → Option Json
  | .jsonBody obj => (popKey obj "message").1
  | .textJsonBody obj => (popKey obj "message").1
  | .textBody s => some (.str s)

/-- The `client` value computed at `main.py` 119-123: the remote address when
no client was supplied (JSON `null` decodes to Python `None`, so it counts as
absent), else `f"<client> (<remote address>)"`. -/
def clientString (popped : Option Json) (remote_addr : String) : String :=
  match popped with
  | none => remote_addr
  | some .null => remote_addr
  | some v => pyStr v ++ " (" ++ remote_addr ++ ")"

/-- pydantic validation of the `message` field (`message: str`, required):
absent or `null` is rejected; strings pass; pydantic v1 coerces numbers and
booleans with `str()`; containers are rejected. -/
def validateMessage : Option Json → Option String
  | none => none
  | some .null => none
  | some (.str s) => some s
  | some (.num n) => some (toString n)
  | some (.bool b) => some (if b then "True" else "False")
  | some (.arr _) => none
  | some (.obj _) => none

/-- Model of `LogPayload.from_request` (`main.py` 96-127): split off `message`,
rewrite `client`, keep the remainder as `extra`, then validate via
`parse_obj`; `none` is the `ValidationError` outcome. -/
def LogPayload.from_request (remote_addr : String) (body : ReqBody) :
    Option LogPayload :=
  let clientPop := popKey (rawPayloadOf body) "client"
  match validateMessage (messageValOf body) with
  | none => none
  | some m =>
    some { client := clientString clientPop.1 remote_addr, message := m,
           extra := clientPop.2 }

/-- Outcome of `POST /log/<level>`: 200 with empty body, 400 plain text for an
unrecognized level, or 400 with the JSON error body (whose `error` key is the
fixed description; the `traceback` and `exception` keys are runtime
diagnostics of the `ValidationError`). -/
inductive LogResponse where
  | ok
  | invalidLevel (body : String)
  | badPayload (error : String)
deriving DecidableEq

/-- The fixed `error` description in the 400 JSON body (`main.py` 290-291). -/
def invalidBodyError : String :=
  "Invalid request body. If payload is JSON, `message` key must be provided"

/-- Model of the handler `log(level)` (`main.py` 270-301): `level.upper()` is
looked up in `NAME_TO_LEVEL` (a miss is the 400 plain-text response); the
payload is parsed from the request (a `ValidationError` is the 400 JSON
response); on success the record is logged to the collector, i.e. appended to
the store, and the response is an empty 200. -/
def log (now : Nat) (s : Store) (level : String) (remote_addr : String)
    (body : ReqBody) : LogResponse × Store :=
  match NAME_TO_LEVEL_get (strUpper level) with
  | none => (.invalidLevel ("Invalid level: " ++ pyRepr level), s)
  | some level_num =>
    match LogPayload.from_request remote_addr body with
    | none => (.badPayload invalidBodyError, s)
    | some log_payload =>
      (.ok, s.append { created := now, levelno := level_num, payload := log_payload })

/-- The client value a request body supplies, with JSON `null` counting as
absent (the reading of "supplies a client" in claim C10). -/
def clientSupplied : ReqBody → Option Json
  | .jsonBody obj =>
    match dictGet obj "client" with
    | some .null => none
    | x => x
  | .textJsonBody obj =>
    match dictGet obj "client" with
    | some .null => none
    | x => x
  | .textBody _ => none

/-- The total order on dict fields used by the `sort_keys=True` model:
compare by key. -/
instance : IsTotal (String × Json) (fun a b => a.1 ≤ b.1) :=
  ⟨fun a b => le_total a.1 b.1⟩

/-- Transitivity of the key order on dict fields. -/
instance : IsTrans (String × Json) (fun a b => a.1 ≤ b.1) :=
  ⟨fun _ _ _ h1 h2 => le_trans h1 h2⟩

/-- Scenario A record of the spec (used by claim C5): client `sensor1`,
message `disk low`, extra `{free_pct: 5}`, level INFO. -/
def sensorRecord : LogRecord :=
  { created := 0, levelno := 20,
    payload := { client := "sensor1", message := "disk low",
                 extra := [("free_pct", Json.num 5)] } }

/-- A record whose `extra` mapping carries a `link` key (claim C3). -/
def linkRecord : LogRecord :=
  { created := 0, levelno := 20,
    payload := { client := "c", message := "m",
                 extra := [("link", Json.str "http://example.com")] } }

/-- A record created at instant 0 (expired in the claim C6 witness). -/
def expiredRecord : LogRecord :=
  { created := 0, levelno := 20,
    payload := { client := "c", message := "m", extra := [] } }

/-- A store holding only `expiredRecord` (claim C6 witness). -/
def storeOne : Store :=
  storeEmpty.append expiredRecord

/-! Helper lemmas shared by the claim proofs. -/

/-- Filtering out the entries of one key leaves lookups of a different key
unchanged (popping `message` does not disturb the later `client` pop). -/
theorem dictGet_filter_ne (d : List (String × Json)) (k kOther : String)
    (hkk : k ≠ kOther) :
    dictGet (d.filter (fun kv => kv.1 != kOther)) k = dictGet d k := by
  unfold dictGet
  congr 1
  have hko : (kOther == k) = false :=
    beq_eq_false_iff_ne.mpr (fun h => hkk h.symm)
  induction d with
  | nil => rfl
  | cons kv rest ih =>
    by_cases h1 : kv.1 = kOther
    · have hk : (kv.1 == k) = false := by
        rw [beq_eq_false_iff_ne]
        exact fun h => hkk (h ▸ h1)
      simp [List.filter_cons, List.find?_cons, h1, hk, hko, ih]
    · by_cases h2 : kv.1 = k
      · have hk : (kv.1 == k) = true := beq_iff_eq.mpr h2
        simp [List.filter_cons, List.find?_cons, h1, h2, hk, hkk, ih]
      · have hk : (kv.1 == k) = false := beq_eq_false_iff_ne.mpr h2
        simp [List.filter_cons, List.find?_cons, h1, hk, ih]

/-- Appending a non-empty parenthesised suffix changes the string. -/
theorem append_paren_ne (a b : String) : a ++ " (" ++ b ++ ")" ≠ a := by
  intro h
  have h1 := congrArg String.length h
  rw [String.length_append, String.length_append, String.length_append] at h1
  have h2 : (" (" : String).length = 2 := rfl
  have h3 : ((")" : String)).length = 1 := rfl
  omega

/-- Appending a record extends each level partition with the record exactly
when the record's level matches. -/
theorem partitionOf_append (s : Store) (r : LogRecord) (L : LogLevel) :
    (s.append r).partitionOf L =
      s.partitionOf L ++ (if r.levelno = L.toNat then [r] else []) := by
  cases L <;>
    simp only [Store.append, Store.partitionOf, LogLevel.toNat] <;>
    split_ifs <;> simp

/-- The partition-filter invariant is preserved by any sequence of appends. -/
theorem foldl_append_partition (rs : List LogRecord) (s : Store)
    (hs : ∀ L, s.partitionOf L =
      s.records.filter (fun x => decide (x.levelno = L.toNat))) :
    ∀ L, (rs.foldl Store.append s).partitionOf L =
      (rs.foldl Store.append s).records.filter
        (fun x => decide (x.levelno = L.toNat)) := by
  induction rs generalizing s with
  | nil => exact hs
  | cons r rest ih =>
    intro L
    apply ih (s.append r)
    intro L2
    rw [partitionOf_append, hs L2]
    show _ = (s.records ++ [r]).filter _
    rw [List.filter_append]
    congr 1
    by_cases h : r.levelno = L2.toNat <;> simp [h]

/-! Claim theorems. -/

/-- Claim C1, counterexample: `GET /feed/logs?level=CRITICAL` — `CRITICAL` is
one of the five recognized severity names, yet the handler fails with the
400 response `Invalid level: 'CRITICAL'` instead of returning the feed,
because `getattr(LH, "CRITICAL_records")` raises: the record-list attributes
are the lowercase `critical_records`, …, `debug_records`. -/
theorem claim_C1_counterexample :
    get_log_feed 0 storeEmpty (some "CRITICAL") =
      FeedResponse.invalidLevel "Invalid level: \x27CRITICAL\x27" ∧
    "CRITICAL" ∈ ["CRITICAL", "ERROR", "WARNING", "INFO", "DEBUG"] :=
  ⟨rfl, by decide⟩

/-- Claim C1, amended: for `GET /feed/logs?level=NAME` the query succeeds
exactly when `NAME` is one of the five lowercase attribute names `critical`,
`error`, `warning`, `info`, `debug` (the lookup is case-sensitive); every
other value — the uppercase enum names included — fails with status 400 and
body `Invalid level: '<value>'`. -/
theorem claim_C1_amended (tz : Int) (s : Store) (lv : String) :
    (lv ∈ queryLevelNames → (get_log_feed tz s (some lv)).isFeed = true) ∧
    (lv ∉ queryLevelNames →
      get_log_feed tz s (some lv) =
        FeedResponse.invalidLevel ("Invalid level: " ++ pyRepr lv)) := by
  constructor
  · intro h
    simp only [queryLevelNames, List.mem_cons, List.not_mem_nil, or_false] at h
    rcases h with h | h | h | h | h <;> subst h <;> rfl
  · intro h
    simp only [queryLevelNames, List.mem_cons, List.not_mem_nil, or_false,
      not_or] at h
    obtain ⟨h1, h2, h3, h4, h5⟩ := h
    simp [get_log_feed, recordsAttr, h1, h2, h3, h4, h5]

/-- Claim C1, witness: the recognized lowercase name `critical` yields a feed,
and the unrecognized `TRACE` yields the 400 body `Invalid level: 'TRACE'`
(spec Scenario C). -/
theorem claim_C1_witness :
    (get_log_feed 0 storeEmpty (some "critical")).isFeed = true ∧
    get_log_feed 0 storeEmpty (some "TRACE") =
      FeedResponse.invalidLevel "Invalid level: \x27TRACE\x27" :=
  ⟨(claim_C1_amended 0 storeEmpty "critical").1 (by decide),
    (claim_C1_amended 0 storeEmpty "TRACE").2 (by decide)⟩

/-- Claim C2, counterexample: `POST /log/warn` — neither `warn` nor its
uppercasing `WARN` is one of the five recognized severity names, yet the
handler accepts the request with status 200 instead of the claimed 400,
because `NAME_TO_LEVEL` also contains the `WARN` alias. -/
theorem claim_C2_counterexample :
    (log 0 storeEmpty "warn" "1.2.3.4" (ReqBody.textBody "hello")).1 =
      LogResponse.ok ∧
    "WARN" ∉ ["CRITICAL", "ERROR", "WARNING", "INFO", "DEBUG"] ∧
    "warn" ∉ ["CRITICAL", "ERROR", "WARNING", "INFO", "DEBUG"] :=
  ⟨rfl, by decide, by decide⟩

/-- Claim C2, amended: `POST /log/<level>` uppercases `<level>` and accepts
exactly the keys of `NAME_TO_LEVEL` — the five severity names matched
case-insensitively, plus the alias `WARN` for `WARNING`; an accepted level
with a well-formed body yields an empty 200 and appends the parsed record,
and any other level yields 400 with plain-text body
`Invalid level: '<value>'`. -/
theorem claim_C2_amended (now : Nat) (s : Store) (level remote_addr : String)
    (body : ReqBody) :
    (NAME_TO_LEVEL_get (strUpper level) = none →
      log now s level remote_addr body =
        (LogResponse.invalidLevel ("Invalid level: " ++ pyRepr level), s)) ∧
    (∀ n p, NAME_TO_LEVEL_get (strUpper level) = some n →
      LogPayload.from_request remote_addr body = some p →
      log now s level remote_addr body =
        (LogResponse.ok,
          s.append { created := now, levelno := n, payload := p })) := by
  constructor
  · intro h
    simp [log, h]
  · intro n p hn hp
    simp [log, hn, hp]

/-- Claim C2, witness: `POST /log/verbose` yields the 400 body
`Invalid level: 'verbose'` (spec Scenario B), and `POST /log/INFO` with a raw
text body is accepted and appends the parsed record. -/
theorem claim_C2_witness :
    log 0 storeEmpty "verbose" "1.2.3.4" (ReqBody.textBody "hi") =
      (LogResponse.invalidLevel "Invalid level: \x27verbose\x27", storeEmpty) ∧
    log 0 storeEmpty "INFO" "1.2.3.4" (ReqBody.textBody "hello") =
      (LogResponse.ok, storeEmpty.append
        { created := 0, levelno := 20,
          payload := { client := "1.2.3.4", message := "hello", extra := [] } }) :=
  ⟨(claim_C2_amended 0 storeEmpty "verbose" "1.2.3.4" (ReqBody.textBody "hi")).1
      rfl,
    (claim_C2_amended 0 storeEmpty "INFO" "1.2.3.4" (ReqBody.textBody "hello")).2
      20 { client := "1.2.3.4", message := "hello", extra := [] } rfl rfl⟩

/-- Claim C3, counterexample: a record whose `extra` mapping contains
`link: "http://example.com"` is rendered with the fixed default link, not with
`extra["link"]` — the code pops `link` from the top level of the loaded
payload dict, whose only keys are `client`, `message`, `extra`. -/
theorem claim_C3_counterexample :
    (renderEntry 0 linkRecord).link = "http://homeassistant.local:8123" ∧
    (renderEntry 0 linkRecord).link ≠ "http://example.com" :=
  ⟨rfl, by decide⟩

/-- Claim C3, amended: the entry link is the top-level payload key `link` when
present and a fixed default otherwise; stored payload dicts only ever have the
keys `client`, `message` and `extra`, so every rendered entry's link is the
fixed default `http://homeassistant.local:8123`, and `extra["link"]` has no
effect. -/
theorem claim_C3_amended (tz : Int) (record : LogRecord) :
    (renderEntry tz record).link = "http://homeassistant.local:8123" := rfl

/-- Claim C5: spec Scenario A — one INFO record with client `sensor1`,
message `disk low` and extra `{free_pct: 5}` renders as exactly one feed entry
titled `sensor1` whose description is the message-only rendering
`disk low. Extra data: {"free_pct": 5}`. -/
theorem claim_C5 :
    get_log_feed 0 (storeEmpty.append sensorRecord) (some "info") =
      FeedResponse.feed [renderEntry 0 sensorRecord] ∧
    (renderEntry 0 sensorRecord).title = "sensor1" ∧
    (renderEntry 0 sensorRecord).description =
      "disk low. Extra data: \x7b\"free_pct\": 5\x7d" :=
  ⟨rfl, rfl, rfl⟩

/-- Claim C4, counterexample: a JSON object body with no `message` key is not
accepted — `POST /log/info` with body `{}` yields the 400 JSON error response
(`LogPayload.message` is a required pydantic `str` field), and no record is
created. -/
theorem claim_C4_counterexample :
    log 0 storeEmpty "info" "1.2.3.4" (ReqBody.jsonBody []) =
      (LogResponse.badPayload invalidBodyError, storeEmpty) ∧
    (log 0 storeEmpty "info" "1.2.3.4" (ReqBody.jsonBody [])).1 ≠
      LogResponse.ok :=
  ⟨rfl, by decide⟩

/-- Claim C4, amended: for a recognized level, the `message` key is required
in a JSON body — a JSON object without it fails validation and yields the 400
JSON response whose body carries the error description (plus the runtime
traceback and exception text); only a raw-text body needs no `message` key,
the whole text becoming the message. -/
theorem claim_C4_amended (now : Nat) (s : Store) (level remote_addr : String)
    (obj : List (String × Json)) (n : Nat)
    (hn : NAME_TO_LEVEL_get (strUpper level) = some n) :
    (dictGet obj "message" = none →
      log now s level remote_addr (ReqBody.jsonBody obj) =
        (LogResponse.badPayload invalidBodyError, s)) ∧
    (∀ t, log now s level remote_addr (ReqBody.textBody t) =
      (LogResponse.ok,
        s.append
          { created := now, levelno := n,
            payload := { client := remote_addr, message := t, extra := [] } })) := by
  constructor
  · intro hm
    have hmsg : messageValOf (ReqBody.jsonBody obj) = none := by
      simp [messageValOf, popKey, hm]
    simp [log, hn, LogPayload.from_request, hmsg, validateMessage]
  · intro t
    simp [log, hn, LogPayload.from_request, messageValOf, validateMessage,
      rawPayloadOf, popKey, dictGet, clientString]

/-- Claim C4, witness: with the recognized level `INFO`, a JSON body carrying
only a `client` key is rejected with the 400 JSON error response. -/
theorem claim_C4_witness :
    log 0 storeEmpty "INFO" "1.2.3.4"
        (ReqBody.jsonBody [("client", Json.str "x")]) =
      (LogResponse.badPayload invalidBodyError, storeEmpty) :=
  (claim_C4_amended 0 storeEmpty "INFO" "1.2.3.4" [("client", Json.str "x")]
    20 rfl).1 rfl

/-- Claim C6: without durable-storage credentials, the archival call on an
evicted record emits the warning diagnostic and performs no write (it returns
instead of raising), and the eviction still completes: the expired record is
gone from the swept store's combined sequence while its archival outcome is
exactly the warning no-op. -/
theorem claim_C6 (tz : Int) (now ttl : Nat) (s : Store) (r : LogRecord)
    (hr : r ∈ s.records) (hexp : ¬ now - r.created < ttl) :
    log_record_to_sftp false tz r =
      { diagnostics := [("WARNING", sftpSkipWarning),
          ("DEBUG", "Record: `" ++ create_log_string tz r false ++ "`")],
        writes := [] } ∧
    r ∉ (sweepExpired false tz now ttl s).1.records ∧
    log_record_to_sftp false tz r ∈ (sweepExpired false tz now ttl s).2 := by
  refine ⟨rfl, ?_, ?_⟩
  · intro hmem
    simp only [sweepExpired] at hmem
    have h2 := (List.mem_filter.mp hmem).2
    simp only [decide_eq_true_eq] at h2
    exact hexp h2
  · simp only [sweepExpired]
    apply List.mem_map_of_mem
    apply List.mem_filter.mpr
    refine ⟨hr, ?_⟩
    simp [hexp]

/-- Claim C6, witness: with TTL 1 and the clock at 2, the record created at 0
is evicted from the one-record store, and its archival is the warning-only
no-op. -/
theorem claim_C6_witness :
    log_record_to_sftp false 0 expiredRecord =
      { diagnostics := [("WARNING", sftpSkipWarning),
          ("DEBUG", "Record: `" ++ create_log_string 0 expiredRecord false ++ "`")],
        writes := [] } ∧
    expiredRecord ∉ (sweepExpired false 0 2 1 storeOne).1.records ∧
    log_record_to_sftp false 0 expiredRecord ∈
      (sweepExpired false 0 2 1 storeOne).2 :=
  claim_C6 0 2 1 storeOne expiredRecord
    (by simp [storeOne, storeEmpty, Store.append])
    (by decide)

/-- Claim C7: the log-line formatter is deterministic — evaluating it twice on
the unchanged record, in either mode, gives byte-identical output — and the
extra-data suffix it serialises lists its keys in lexicographically sorted
order. -/
theorem claim_C7 (tz : Int) (record : LogRecord) (message_only : Bool) :
    create_log_string tz record message_only =
      create_log_string tz record message_only ∧
    List.Sorted (fun a b => a ≤ b)
      ((sortFields (jsonSortKeysFields record.payload.extra)).map Prod.fst) := by
  refine ⟨rfl, ?_⟩
  simp only [sortFields]
  rw [List.Sorted, List.pairwise_map]
  exact List.sorted_insertionSort _ _

/-- Claim C8: the full-line rendering is the tab-separated concatenation of
the formatted local timestamp, the bracketed level name, the client, and the
message-only rendering. -/
theorem claim_C8 (tz : Int) (record : LogRecord) :
    create_log_string tz record false =
      formatTimestamp tz record.created ++ "\t" ++
        ("[" ++ getLevelName record.levelno ++ "]") ++ "\t" ++
        record.payload.client ++ "\t" ++ create_log_string tz record true := by
  simp [create_log_string, strJoin, String.append_assoc]

/-- Claim C9: after any sequence of appends to the empty store, the
level-partition returned for a recognized level equals the combined
arrival-order sequence filtered to records of that level, preserving order. -/
theorem claim_C9 (rs : List LogRecord) (L : LogLevel) :
    (appendAll rs).partitionOf L =
      (appendAll rs).records.filter (fun x => decide (x.levelno = L.toNat)) :=
  foldl_append_partition rs storeEmpty (fun L2 => by cases L2 <;> rfl) L

/-- Claim C10: the stored client is never the caller-supplied value alone —
when the body supplies a client value it is rewritten to
`"<client> (<remote address>)"` (which differs from the supplied value), and
when no client is supplied the stored client is exactly the remote address. -/
theorem claim_C10 (remote_addr : String) (body : ReqBody) (p : LogPayload)
    (h : LogPayload.from_request remote_addr body = some p) :
    (clientSupplied body = none → p.client = remote_addr) ∧
    (∀ v, clientSupplied body = some v →
      p.client = pyStr v ++ " (" ++ remote_addr ++ ")" ∧
        p.client ≠ pyStr v) := by
  have hclient :
      p.client = clientString (popKey (rawPayloadOf body) "client").1 remote_addr := by
    unfold LogPayload.from_request at h
    cases hv : validateMessage (messageValOf body) with
    | none => rw [hv] at h; exact absurd h (by simp)
    | some m =>
      rw [hv] at h
      simp only [Option.some.injEq] at h
      rw [← h]
  have hpop : ∀ obj : List (String × Json),
      (popKey (rawPayloadOf (ReqBody.jsonBody obj)) "client").1 =
        dictGet obj "client" := by
    intro obj
    show dictGet ((popKey obj "message").2) "client" = dictGet obj "client"
    exact dictGet_filter_ne obj "client" "message" (by decide)
  have hpop2 : ∀ obj : List (String × Json),
      (popKey (rawPayloadOf (ReqBody.textJsonBody obj)) "client").1 =
        dictGet obj "client" := by
    intro obj
    show dictGet ((popKey obj "message").2) "client" = dictGet obj "client"
    exact dictGet_filter_ne obj "client" "message" (by decide)
  cases body with
  | jsonBody obj =>
    rw [hpop obj] at hclient
    constructor
    · intro hnone
      simp only [clientSupplied] at hnone
      cases hg : dictGet obj "client" with
      | none => rw [hg] at hclient; exact hclient
      | some v =>
        cases v <;> rw [hg] at hnone hclient <;> simp_all [clientString]
    · intro v hv
      simp only [clientSupplied] at hv
      cases hg : dictGet obj "client" with
      | none => rw [hg] at hv; exact absurd hv (by simp)
      | some w =>
        rw [hg] at hv hclient
        cases w <;> simp_all [clientString] <;>
          exact append_paren_ne _ remote_addr
  | textJsonBody obj =>
    rw [hpop2 obj] at hclient
    constructor
    · intro hnone
      simp only [clientSupplied] at hnone
      cases hg : dictGet obj "client" with
      | none => rw [hg] at hclient; exact hclient
      | some v =>
        cases v <;> rw [hg] at hnone hclient <;> simp_all [clientString]
    · intro v hv
      simp only [clientSupplied] at hv
      cases hg : dictGet obj "client" with
      | none => rw [hg] at hv; exact absurd hv (by simp)
      | some w =>
        rw [hg] at hv hclient
        cases w <;> simp_all [clientString] <;>
          exact append_paren_ne _ remote_addr
  | textBody s =>
    constructor
    · intro _
      simpa [rawPayloadOf, popKey, dictGet, clientString] using hclient
    · intro v hv
      exact absurd hv (by simp [clientSupplied])

/-- Claim C10, witness: a JSON body supplying client `sensor` from remote
address `1.2.3.4` stores client `sensor (1.2.3.4)`, which differs from the
supplied value. -/
theorem claim_C10_witness :
    ({ client := "sensor (1.2.3.4)", message := "m", extra := [] } :
        LogPayload).client =
      pyStr (Json.str "sensor") ++ " (" ++ "1.2.3.4" ++ ")" ∧
    ({ client := "sensor (1.2.3.4)", message := "m", extra := [] } :
        LogPayload).client ≠ pyStr (Json.str "sensor") :=
  (claim_C10 "1.2.3.4"
      (ReqBody.jsonBody [("message", Json.str "m"), ("client", Json.str "sensor")])
      { client := "sensor (1.2.3.4)", message := "m", extra := [] } rfl).2
    (Json.str "sensor") rfl

end RssLogFeed
